import Mathlib

/-!
Verification of the SourceCred composition and normalization pipeline.

Shallow embedding of:
  - src/core/algorithm/distributionToCred (the Distribution Normalizer);
    the implementation file is not part of the provided sources (only its
    test suite is), so the operation is modelled from the specification
    (spec section 4.5) with exact rational arithmetic standing in for
    IEEE Float64 arithmetic.
  - src/core/project.js (Project versioning: createProject, projectToJSON,
    projectFromJSON, upgradeFrom030, upgradeFrom040); the compat wrapper
    (toCompat / fromCompat from util/compat) is likewise modelled from the
    specification.
  - src/backend/pluginLoaders.js (declarations, updateMirror,
    createReferenceDetector, contractPluginGraphs). External adapter
    operations (network mirroring, cache, graph building) are modelled
    abstractly: mirror calls become trace events, adapter-produced
    reference detectors and graphs are parameters.
-/

namespace SourceCred

/-! ### Node addresses

A node address is a list of string parts; an address prefix `p` matches an
address `a` when the parts of `p` are an initial segment of the parts of
`a`. The empty address is the matches-all prefix. -/

abbrev NodeAddress := List String

/-- Modelled from the spec: address-prefix matching of the core graph
address module (not under the provided sources). `addrMatch p a` holds when
prefix `p` matches address `a`. -/
def addrMatch : NodeAddress → NodeAddress → Bool
  | [], _ => true
  | _ :: _, [] => false
  | p :: ps, a :: as => p == a && addrMatch ps as

/-- A node is scoring when some scoring address prefix matches it. -/
def isScoringAddr (scoringAddresses : List NodeAddress) (a : NodeAddress) : Bool :=
  scoringAddresses.any (fun p => addrMatch p a)

/-! ### Distribution Normalizer (distributionToCred) -/

structure Interval where
  startTimeMs : Int
  endTimeMs : Int
  deriving DecidableEq

structure IntervalDistribution where
  interval : Interval
  intervalWeight : ℚ
  distribution : List ℚ
  deriving DecidableEq

structure CredScores where
  intervals : List Interval
  intervalCredScores : List (List ℚ)
  deriving DecidableEq

/-- Modelled from the spec: the scoring mass of one interval distribution,
the sum of the distribution's probability over every node in `nodeOrder`
whose address matches some scoring prefix (spec section 4.5 step 1). The
distribution vector is indexed by `nodeOrder`. -/
def scoringMass (nodeOrder : List NodeAddress) (scoringAddresses : List NodeAddress) :
    List ℚ → ℚ
  | [] => 0
  | x :: xs =>
    match nodeOrder with
    | [] => 0
    | a :: rest =>
      (if isScoringAddr scoringAddresses a then x else 0) +
        scoringMass rest scoringAddresses xs

/-- Modelled from the spec: `distributionToCred` (the implementation file
src/core/algorithm/distributionToCred.js is not among the provided sources;
only its test suite is). Per interval: compute the scoring mass; if it is
zero every node's cred is zero; otherwise every node j gets
`intervalWeight * distribution[j] / scoringMass` (spec section 4.5).
Rational arithmetic stands in for Float64. -/
def distributionToCred (ds : List IntervalDistribution)
    (nodeOrder : List NodeAddress) (scoringAddresses : List NodeAddress) : CredScores :=
  { intervals := ds.map (fun d => d.interval),
    intervalCredScores := ds.map (fun d =>
      let mass := scoringMass nodeOrder scoringAddresses d.distribution
      if mass = 0 then d.distribution.map (fun _ => 0)
      else d.distribution.map (fun x => d.intervalWeight * x / mass)) }

/-! Concrete fixtures from the distributionToCred test suite. -/

def naFoo : NodeAddress := ["foo"]

def naBar : NodeAddress := ["bar"]

def nodeOrderEx : List NodeAddress := [naFoo, naBar]

def dEx1 : IntervalDistribution :=
  { interval := { startTimeMs := 0, endTimeMs := 10 },
    intervalWeight := 2,
    distribution := [1/2, 1/2] }

def dEx2 : IntervalDistribution :=
  { interval := { startTimeMs := 10, endTimeMs := 20 },
    intervalWeight := 10,
    distribution := [9/10, 1/10] }

def dEx3 : IntervalDistribution :=
  { interval := { startTimeMs := 0, endTimeMs := 10 },
    intervalWeight := 2,
    distribution := [1, 0] }

def dsEx : List IntervalDistribution := [dEx1, dEx2]

/-! ### Project versioning (src/core/project.js)

`RepoId`, `Identity` and the initiatives `ProjectOptions` are plugin types
imported by project.js from outside the provided sources; they are opaque
payloads here, modelled as strings (`Initiatives` keeps the `remoteUrl`
field that pluginLoaders.js reads). -/

abbrev ProjectId := String

abbrev RepoId := String

abbrev Identity := String

structure Initiatives where
  remoteUrl : String
  deriving DecidableEq

structure DiscourseServer where
  serverUrl : String
  deriving DecidableEq

/-- The current (0.5.0) project shape. -/
structure ProjectV050 where
  id : ProjectId
  initiatives : Option Initiatives
  repoIds : List RepoId
  discourseServer : Option DiscourseServer
  identities : List Identity
  deriving DecidableEq

abbrev Project := ProjectV050

/-- The 0.4.0 project shape: no `initiatives` field yet. -/
structure ProjectV040 where
  id : ProjectId
  repoIds : List RepoId
  discourseServer : Option DiscourseServer
  identities : List Identity
  deriving DecidableEq

/-- The 0.3.1 forum-server sub-shape: `apiUsername` optional. -/
structure DiscourseServerV031 where
  serverUrl : String
  apiUsername : Option String
  deriving DecidableEq

/-- The 0.3.0 forum-server sub-shape: `apiUsername` required. -/
structure DiscourseServerV030 where
  serverUrl : String
  apiUsername : String
  deriving DecidableEq

structure ProjectV031 where
  id : ProjectId
  repoIds : List RepoId
  discourseServer : Option DiscourseServerV031
  identities : List Identity
  deriving DecidableEq

structure ProjectV030 where
  id : ProjectId
  repoIds : List RepoId
  discourseServer : Option DiscourseServerV030
  identities : List Identity
  deriving DecidableEq

/-- The argument union of `upgradeFrom030`, which in the source accepts
both the 0.3.0 and the 0.3.1 shape. -/
inductive ProjectV03x where
  | v030 (p : ProjectV030)
  | v031 (p : ProjectV031)
  deriving DecidableEq

def upgradeFrom040 (p : ProjectV040) : ProjectV050 :=
  { id := p.id,
    repoIds := p.repoIds,
    discourseServer := p.discourseServer,
    identities := p.identities,
    initiatives := none }

/-- `upgradeFrom030`: normalizes the forum-server sub-shape to keep only
`serverUrl` (dropping `apiUsername`), keeps `null` when absent, then feeds
the result through `upgradeFrom040`. -/
def upgradeFrom030 : ProjectV03x → ProjectV050
  | .v030 p =>
    upgradeFrom040
      { id := p.id,
        repoIds := p.repoIds,
        identities := p.identities,
        discourseServer := p.discourseServer.map (fun d => { serverUrl := d.serverUrl }) }
  | .v031 p =>
    upgradeFrom040
      { id := p.id,
        repoIds := p.repoIds,
        identities := p.identities,
        discourseServer := p.discourseServer.map (fun d => { serverUrl := d.serverUrl }) }

structure CompatInfo where
  type : String
  version : String
  deriving DecidableEq

def COMPAT_INFO : CompatInfo := { type := "sourcecred/project", version := "0.5.0" }

/-- A persisted project payload, one constructor per supported version. -/
inductive SupportedProject where
  | v030 (p : ProjectV030)
  | v031 (p : ProjectV031)
  | v040 (p : ProjectV040)
  | v050 (p : ProjectV050)
  deriving DecidableEq

/-- A persisted project document: a compat header alongside the payload. -/
structure ProjectJSON where
  compat : CompatInfo
  payload : SupportedProject
  deriving DecidableEq

inductive CompatError where
  | wrongType (found : String)
  | unknownVersion (found : String)
  | malformedPayload
  deriving DecidableEq

/-- Modelled from the spec: `toCompat` of util/compat (not among the
provided sources) tags the payload with the compat header;
`projectToJSON` applies it with the current `COMPAT_INFO`. -/
def projectToJSON (p : Project) : ProjectJSON :=
  { compat := COMPAT_INFO, payload := SupportedProject.v050 p }

/-- Modelled from the spec: `fromCompat` of util/compat (not among the
provided sources), specialised to the project upgrade table of
src/core/project.js: a wrong type discriminator or an unrecognized version
tag fails with a CompatError; a current-version payload is returned as is;
the versions 0.3.0 / 0.3.1 / 0.4.0 are mapped through the `upgrades` table
(`upgradeFrom030`, `upgradeFrom030`, `upgradeFrom040` respectively). -/
def projectFromJSON (j : ProjectJSON) : Except CompatError Project :=
  if j.compat.type ≠ "sourcecred/project" then
    .error (.wrongType j.compat.type)
  else if j.compat.version = "0.5.0" then
    match j.payload with
    | .v050 p => .ok p
    | _ => .error .malformedPayload
  else if j.compat.version = "0.4.0" then
    match j.payload with
    | .v040 p => .ok (upgradeFrom040 p)
    | _ => .error .malformedPayload
  else if j.compat.version = "0.3.1" then
    match j.payload with
    | .v031 p => .ok (upgradeFrom030 (.v031 p))
    | _ => .error .malformedPayload
  else if j.compat.version = "0.3.0" then
    match j.payload with
    | .v030 p => .ok (upgradeFrom030 (.v030 p))
    | _ => .error .malformedPayload
  else
    .error (.unknownVersion j.compat.version)

/-- The `$Shape<Project>` argument of `createProject`: every field
optional. An absent field takes its default; a present field is kept. -/
structure ProjectShape where
  id : Option ProjectId
  initiatives : Option (Option Initiatives)
  repoIds : Option (List RepoId)
  discourseServer : Option (Option DiscourseServer)
  identities : Option (List Identity)
  deriving DecidableEq

/-- `createProject`: fails when the id is absent or empty (the source's
falsiness check `!p.id`), otherwise spreads the given shape over the
defaults (empty repo list, empty identities, no forum server, no
initiatives). -/
def createProject (p : ProjectShape) : Except String Project :=
  match p.id with
  | none => .error "Project.id must be set"
  | some i =>
    if i = "" then .error "Project.id must be set"
    else
      .ok { id := i,
            repoIds := p.repoIds.getD [],
            identities := p.identities.getD [],
            discourseServer := p.discourseServer.getD none,
            initiatives := p.initiatives.getD none }

/-! ### Backend plugin loaders (src/backend/pluginLoaders.js)

External adapter operations are abstracted: a plugin declaration is an
opaque value of a type parameter `Decl`; a weighted graph is an opaque
value of a type parameter `WG` (weightedGraph.js is not among the provided
sources, so `WeightedGraph.merge` and `identity.contractIdentities` are
parameters); a reference detector maps a URL string to an optional node
address; mirror-update and directory-load network calls are recorded as
trace events. The cache handle is an external collaborator and carries no
behaviour relevant to these operations, so it is omitted from the
structures. -/

abbrev RefDetector := String → Option NodeAddress

/-- The in-memory handle returned by the initiative source's directory
load; pluginLoaders.js reads its `referenceDetector` (and hands its
initiative records to the initiative graph builder, which is external). -/
structure LoadedInitiativesDirectory where
  referenceDetector : RefDetector

structure GithubLoader (Decl : Type) where
  declaration : Decl
  referenceDetector : RefDetector

structure DiscourseLoader (Decl : Type) where
  declaration : Decl
  referenceDetector : RefDetector

structure IdentitySpec where
  identities : List Identity
  discourseServerUrl : Option String

structure IdentityLoader (Decl WG : Type) where
  declaration : Decl
  contractIdentities : WG → IdentitySpec → WG

structure InitiativesLoader (Decl : Type) where
  declaration : Decl

/-- The record of all known plugin loaders. -/
structure PluginLoaders (Decl WG : Type) where
  github : GithubLoader Decl
  discourse : DiscourseLoader Decl
  identity : IdentityLoader Decl WG
  initiatives : InitiativesLoader Decl

/-- A Project bound to its (attempted) mirror pass; the cache handle is
omitted (external collaborator). -/
structure CachedProject where
  loadedInitiativesDir : Option LoadedInitiativesDirectory
  project : Project

structure PluginGraphs (WG : Type) where
  graphs : List WG
  cachedProject : CachedProject

/-- One network / directory-load call initiated by `updateMirror`, in
initiation order. -/
inductive MirrorEvent where
  | discourseMirror
  | githubMirror
  | initiativesLoad
  deriving DecidableEq

/-- The configuration errors `updateMirror` / `createReferenceDetector`
throw (in the source, plain `Error`s with fixed messages). -/
inductive ConfigurationError where
  | githubTokenMissing
  | initiativesDirectoryMissing
  deriving DecidableEq

/-- The mirror environment. `loadDirectory` models the external
`initiatives.loadDirectory(localPath, remoteUrl)` call: the handle the
initiative source would return. -/
structure MirrorEnv where
  initiativesDirectory : Option String
  githubToken : Option String
  loadDirectory : String → String → LoadedInitiativesDirectory

structure GraphEnv where
  githubToken : Option String

/-- `declarations`: pushes the declaration of each source whose project
field is non-empty / present, in source order github, discourse, identity,
initiatives. -/
def declarations {Decl WG : Type} (pl : PluginLoaders Decl WG) (project : Project) :
    List Decl :=
  let plugins : List Decl := []
  let plugins := if project.repoIds.length ≠ 0
    then plugins ++ [pl.github.declaration] else plugins
  let plugins := if project.discourseServer.isSome
    then plugins ++ [pl.discourse.declaration] else plugins
  let plugins := if project.identities.length ≠ 0
    then plugins ++ [pl.identity.declaration] else plugins
  let plugins := if project.initiatives.isSome
    then plugins ++ [pl.initiatives.declaration] else plugins
  plugins

/-- `updateMirror`, with each adapter call that initiates network or
directory I/O recorded as a `MirrorEvent` in the order the source initiates
it: the discourse mirror call is made first when the forum source applies;
then the github token check (throwing when the code-hosting source applies
without a token) and the github mirror call; then the initiatives directory
check (throwing when the initiative source applies without a configured
directory) and the awaited directory load. A thrown error carries the
events already initiated at the throw point. -/
def updateMirror (env : MirrorEnv) (project : Project) :
    Except (ConfigurationError × List MirrorEvent) (List MirrorEvent × CachedProject) :=
  let ev1 : List MirrorEvent :=
    if project.discourseServer.isSome then [MirrorEvent.discourseMirror] else []
  if project.repoIds.length ≠ 0 ∧ env.githubToken = none then
    .error (ConfigurationError.githubTokenMissing, ev1)
  else
    let ev2 := if project.repoIds.length ≠ 0
      then ev1 ++ [MirrorEvent.githubMirror] else ev1
    match project.initiatives with
    | none => .ok (ev2, { loadedInitiativesDir := none, project })
    | some ini =>
      match env.initiativesDirectory with
      | none => .error (ConfigurationError.initiativesDirectoryMissing, ev2)
      | some dir =>
        .ok (ev2 ++ [MirrorEvent.initiativesLoad],
          { loadedInitiativesDir := some (env.loadDirectory dir ini.remoteUrl),
            project })

/-- Modelled from the spec: `CascadingReferenceDetector` of
src/core/references (not among the provided sources): holds an ordered
list of child detectors. -/
structure CascadingReferenceDetector where
  refs : List RefDetector

/-- Modelled from the spec: the cascading detector tries its children in
registration order and returns the first non-empty match. -/
def CascadingReferenceDetector.addressFromUrl
    (c : CascadingReferenceDetector) (url : String) : Option NodeAddress :=
  c.refs.findSome? (fun r => r url)

/-- `createReferenceDetector`: one child detector per applicable source
(github requires the token, as in the source), pushed in the fixed order
github, discourse, initiatives (the initiative child comes from the loaded
directory), wrapped in a `CascadingReferenceDetector`. The adapter calls
`github.referenceDetector(repoIds, token, cache)` and
`discourse.referenceDetector(server, cache)` are external; their resulting
detectors are the loader record's `referenceDetector` fields. -/
def createReferenceDetector {Decl WG : Type} (pl : PluginLoaders Decl WG)
    (env : GraphEnv) (cp : CachedProject) :
    Except ConfigurationError CascadingReferenceDetector :=
  let refs : List RefDetector := []
  if cp.project.repoIds.length ≠ 0 ∧ env.githubToken = none then
    .error ConfigurationError.githubTokenMissing
  else
    let refs := if cp.project.repoIds.length ≠ 0
      then refs ++ [pl.github.referenceDetector] else refs
    let refs := if cp.project.discourseServer.isSome
      then refs ++ [pl.discourse.referenceDetector] else refs
    let refs := match cp.loadedInitiativesDir with
      | some d => refs ++ [d.referenceDetector]
      | none => refs
    .ok { refs := refs }

/-- `contractPluginGraphs`: merges the per-source graphs (the external
`WeightedGraph.merge` is the parameter `merge`) and, only when the project
defines manual identity merges, contracts identities via the identity
loader, passing the forum server URL (or `null` when none is configured)
alongside the identity specifications. -/
def contractPluginGraphs {Decl WG : Type} (pl : PluginLoaders Decl WG)
    (merge : List WG → WG) (pg : PluginGraphs WG) : WG :=
  let project := pg.cachedProject.project
  let mergedGraph := merge pg.graphs
  if project.identities.length = 0 then mergedGraph
  else
    pl.identity.contractIdentities mergedGraph
      { identities := project.identities,
        discourseServerUrl := project.discourseServer.map (fun d => d.serverUrl) }

/-! ### Concrete fixtures for the backend witnesses -/

def shapeEx : ProjectShape :=
  { id := some "foo", initiatives := none, repoIds := none,
    discourseServer := none, identities := none }

def loadersEx : PluginLoaders String Nat :=
  { github := { declaration := "github", referenceDetector := fun _ => none },
    discourse := { declaration := "discourse", referenceDetector := fun _ => none },
    identity := { declaration := "identity", contractIdentities := fun g _ => g },
    initiatives := { declaration := "initiatives" } }

/-- A second loader record whose identity contraction behaves differently,
to exhibit that no contraction runs when no identities are configured. -/
def loadersEx2 : PluginLoaders String Nat :=
  { github := { declaration := "github", referenceDetector := fun _ => none },
    discourse := { declaration := "discourse", referenceDetector := fun _ => none },
    identity := { declaration := "identity", contractIdentities := fun g _ => g + 1 },
    initiatives := { declaration := "initiatives" } }

def projIdent : Project :=
  { id := "p", initiatives := none, repoIds := [],
    discourseServer := none, identities := ["alice"] }

def projNoIdent : Project :=
  { id := "p", initiatives := none, repoIds := ["sourcecred/sourcecred"],
    discourseServer := some { serverUrl := "https://forum.example" },
    identities := [] }

def projDG : Project :=
  { id := "p", initiatives := none, repoIds := ["sourcecred/sourcecred"],
    discourseServer := some { serverUrl := "https://forum.example" },
    identities := [] }

def projInit : Project :=
  { id := "p", initiatives := some { remoteUrl := "https://git.example" },
    repoIds := [], discourseServer := some { serverUrl := "https://forum.example" },
    identities := [] }

def envNoToken : MirrorEnv :=
  { initiativesDirectory := none, githubToken := none,
    loadDirectory := fun _ _ => { referenceDetector := fun _ => none } }

def envTok : MirrorEnv :=
  { initiativesDirectory := none, githubToken := some "tok",
    loadDirectory := fun _ _ => { referenceDetector := fun _ => none } }

def ldEx : LoadedInitiativesDirectory := { referenceDetector := fun _ => none }

def cpEx : CachedProject := { loadedInitiativesDir := some ldEx, project := projNoIdent }

def genvEx : GraphEnv := { githubToken := some "token" }

def pgEx : PluginGraphs Nat :=
  { graphs := [3, 4],
    cachedProject := { loadedInitiativesDir := none, project := projNoIdent } }

def mergeSum : List Nat → Nat := fun l => l.sum

/-! ### Lemmas about the Distribution Normalizer -/

/-- The matches-all (empty) prefix matches every address. -/
theorem isScoringAddr_univ (a : NodeAddress) :
    isScoringAddr [([] : NodeAddress)] a = true := by
  simp [isScoringAddr, addrMatch]

/-- Masked sums commute with the per-entry rescaling `x ↦ w * x / s`. -/
theorem scoringMass_map_mul_div (dist : List ℚ) (nodeOrder : List NodeAddress)
    (scoringAddresses : List NodeAddress) (w s : ℚ) :
    scoringMass nodeOrder scoringAddresses (dist.map (fun x => w * x / s)) =
      w * scoringMass nodeOrder scoringAddresses dist / s := by
  induction dist generalizing nodeOrder with
  | nil => simp [scoringMass]
  | cons x xs ih =>
    cases nodeOrder with
    | nil => simp [scoringMass]
    | cons a rest =>
      simp only [List.map_cons, scoringMass, ih, mul_add, add_div]
      by_cases h : isScoringAddr scoringAddresses a
      · simp [h]
      · simp [h]

/-- When the scoring set covers every node of `nodeOrder`, the scoring mass
agrees with the one computed from the matches-all scoring set. -/
theorem scoringMass_covering (dist : List ℚ) (nodeOrder : List NodeAddress)
    (scoringAddresses : List NodeAddress)
    (hcov : ∀ a ∈ nodeOrder, isScoringAddr scoringAddresses a = true) :
    scoringMass nodeOrder scoringAddresses dist =
      scoringMass nodeOrder [([] : NodeAddress)] dist := by
  induction dist generalizing nodeOrder with
  | nil => simp [scoringMass]
  | cons x xs ih =>
    cases nodeOrder with
    | nil => simp [scoringMass]
    | cons a rest =>
      have ha : isScoringAddr scoringAddresses a = true := hcov a (by simp)
      have hrest : ∀ b ∈ rest, isScoringAddr scoringAddresses b = true :=
        fun b hb => hcov b (by simp [hb])
      simp [scoringMass, ha, isScoringAddr_univ, ih rest hrest]

/-- Evaluation fact for the witnesses: foo is not scoring under `{bar}`. -/
theorem isScoringAddr_bar_foo : isScoringAddr [naBar] naFoo = false := by decide

/-- Evaluation fact for the witnesses: bar is scoring under `{bar}`. -/
theorem isScoringAddr_bar_bar : isScoringAddr [naBar] naBar = true := by decide

/-- C1: for every interval distribution in the input whose scoring mass is
strictly positive, `distributionToCred` assigns every node j (scoring or
not) the cred `intervalWeight * distribution[j] / scoringMass`, and the sum
of cred over the scoring-matching nodes (the scoring-masked sum of the cred
vector) equals `intervalWeight`. -/
theorem distributionToCred_pos_mass (ds : List IntervalDistribution)
    (nodeOrder scoringAddresses : List NodeAddress) (i : ℕ) (d : IntervalDistribution)
    (hd : ds[i]? = some d)
    (hm : 0 < scoringMass nodeOrder scoringAddresses d.distribution) :
    (distributionToCred ds nodeOrder scoringAddresses).intervalCredScores[i]? =
      some (d.distribution.map (fun x =>
        d.intervalWeight * x / scoringMass nodeOrder scoringAddresses d.distribution)) ∧
    scoringMass nodeOrder scoringAddresses
      (d.distribution.map (fun x =>
        d.intervalWeight * x / scoringMass nodeOrder scoringAddresses d.distribution)) =
      d.intervalWeight := by
  have hs : scoringMass nodeOrder scoringAddresses d.distribution ≠ 0 := ne_of_gt hm
  constructor
  · simp only [distributionToCred, List.getElem?_map, hd, Option.map_some']
    rw [if_neg hs]
  · rw [scoringMass_map_mul_div, mul_div_assoc, div_self hs, mul_one]

/-- C1 witness: the test-suite scenario with two intervals,
`nodeOrder = [foo, bar]`, scoring set `{bar}`; the second interval has
weight 10, distribution `[0.9, 0.1]` and scoring mass `0.1`. -/
theorem distributionToCred_pos_mass_witness :
    dsEx[1]? = some dEx2 ∧
    0 < scoringMass nodeOrderEx [naBar] dEx2.distribution ∧
    ((distributionToCred dsEx nodeOrderEx [naBar]).intervalCredScores[1]? =
      some (dEx2.distribution.map (fun x =>
        dEx2.intervalWeight * x / scoringMass nodeOrderEx [naBar] dEx2.distribution)) ∧
    scoringMass nodeOrderEx [naBar]
      (dEx2.distribution.map (fun x =>
        dEx2.intervalWeight * x / scoringMass nodeOrderEx [naBar] dEx2.distribution)) =
      dEx2.intervalWeight) :=
  ⟨rfl,
   by norm_num [scoringMass, nodeOrderEx, dEx2, isScoringAddr_bar_foo, isScoringAddr_bar_bar],
   distributionToCred_pos_mass dsEx nodeOrderEx [naBar] 1 dEx2 rfl
     (by norm_num [scoringMass, nodeOrderEx, dEx2, isScoringAddr_bar_foo, isScoringAddr_bar_bar])⟩

/-- C3: for every interval distribution in the input whose scoring mass is
zero, `distributionToCred` assigns cred 0 to every node for that interval
(the cred vector is all zeros), with no error raised — the operation is a
total function, and this holds even when non-scoring nodes carry positive
probability mass. -/
theorem distributionToCred_zero_mass (ds : List IntervalDistribution)
    (nodeOrder scoringAddresses : List NodeAddress) (i : ℕ) (d : IntervalDistribution)
    (hd : ds[i]? = some d)
    (hm : scoringMass nodeOrder scoringAddresses d.distribution = 0) :
    (distributionToCred ds nodeOrder scoringAddresses).intervalCredScores[i]? =
      some (List.replicate d.distribution.length 0) := by
  simp only [distributionToCred, List.getElem?_map, hd, Option.map_some']
  rw [if_pos hm, List.map_const']

/-- C3 witness: the test-suite scenario with distribution `[1, 0]` over
`nodeOrder = [foo, bar]` and scoring set `{bar}`: the non-scoring node foo
carries all the mass, the scoring mass is 0, and the cred is `[0, 0]`. -/
theorem distributionToCred_zero_mass_witness :
    [dEx3][0]? = some dEx3 ∧
    scoringMass nodeOrderEx [naBar] dEx3.distribution = 0 ∧
    (distributionToCred [dEx3] nodeOrderEx [naBar]).intervalCredScores[0]? =
      some (List.replicate dEx3.distribution.length 0) :=
  ⟨rfl,
   by norm_num [scoringMass, nodeOrderEx, dEx3, isScoringAddr_bar_foo, isScoringAddr_bar_bar],
   distributionToCred_zero_mass [dEx3] nodeOrderEx [naBar] 0 dEx3 rfl
     (by norm_num [scoringMass, nodeOrderEx, dEx3, isScoringAddr_bar_foo, isScoringAddr_bar_bar])⟩

/-- C9: when the scoring address set covers every node of `nodeOrder`, the
result of `distributionToCred` is identical to the one computed with the
universal matches-all (empty-prefix) scoring set. -/
theorem distributionToCred_covering_eq_univ (ds : List IntervalDistribution)
    (nodeOrder scoringAddresses : List NodeAddress)
    (hcov : ∀ a ∈ nodeOrder, isScoringAddr scoringAddresses a = true) :
    distributionToCred ds nodeOrder scoringAddresses =
      distributionToCred ds nodeOrder [([] : NodeAddress)] := by
  simp only [distributionToCred, CredScores.mk.injEq, true_and]
  congr 1
  funext d
  rw [scoringMass_covering d.distribution nodeOrder scoringAddresses hcov]

/-- C9 witness: the test-suite scenario with the scoring prefix set
`{foo, bar}`, which covers both nodes of `nodeOrder = [foo, bar]`; the
result agrees with the matches-all scoring set. -/
theorem distributionToCred_covering_eq_univ_witness :
    (∀ a ∈ nodeOrderEx, isScoringAddr [naFoo, naBar] a = true) ∧
    distributionToCred dsEx nodeOrderEx [naFoo, naBar] =
      distributionToCred dsEx nodeOrderEx [([] : NodeAddress)] :=
  ⟨by decide,
   distributionToCred_covering_eq_univ dsEx nodeOrderEx [naFoo, naBar] (by decide)⟩

/-! ### Project versioning theorems -/

/-- C4: for every current-version (0.5.0) Project, serializing with
`projectToJSON` and loading back with `projectFromJSON` is the identity,
and `projectToJSON` always emits the current version tag. -/
theorem projectJSON_roundTrip (p : Project) :
    projectFromJSON (projectToJSON p) = Except.ok p ∧
    (projectToJSON p).compat.version = "0.5.0" := by
  constructor
  · simp [projectFromJSON, projectToJSON, COMPAT_INFO]
  · rfl

/-- C5: upgrading a valid persisted document tagged 0.3.0, 0.3.1 or 0.4.0
yields the 0.5.0 shape preserving `id`, `repoIds` and `identities`,
defaulting the new `initiatives` field to absent, and — for 0.3.0/0.3.1 —
normalizing the forum-server sub-shape by dropping the deprecated
`apiUsername` field while keeping `serverUrl` (or keeping it null when
absent). -/
theorem projectFromJSON_upgrades_legacy :
    (∀ p : ProjectV030,
      projectFromJSON
          { compat := { type := "sourcecred/project", version := "0.3.0" },
            payload := SupportedProject.v030 p } =
        Except.ok
          { id := p.id, repoIds := p.repoIds, identities := p.identities,
            initiatives := none,
            discourseServer :=
              p.discourseServer.map (fun d => { serverUrl := d.serverUrl }) }) ∧
    (∀ p : ProjectV031,
      projectFromJSON
          { compat := { type := "sourcecred/project", version := "0.3.1" },
            payload := SupportedProject.v031 p } =
        Except.ok
          { id := p.id, repoIds := p.repoIds, identities := p.identities,
            initiatives := none,
            discourseServer :=
              p.discourseServer.map (fun d => { serverUrl := d.serverUrl }) }) ∧
    (∀ p : ProjectV040,
      projectFromJSON
          { compat := { type := "sourcecred/project", version := "0.4.0" },
            payload := SupportedProject.v040 p } =
        Except.ok
          { id := p.id, repoIds := p.repoIds, identities := p.identities,
            initiatives := none,
            discourseServer := p.discourseServer }) := by
  refine ⟨fun p => ?_, fun p => ?_, fun p => ?_⟩ <;>
    simp [projectFromJSON, upgradeFrom030, upgradeFrom040]

/-- C8: `createProject` fails exactly when the input shape carries no
non-empty identifier; otherwise it returns the Project whose unspecified
fields take their defaults (empty repository list, empty identity list,
absent forum server, absent initiative set) and whose specified fields are
kept. -/
theorem createProject_spec :
    (∀ p : ProjectShape,
      (createProject p).isOk = false ↔ (p.id = none ∨ p.id = some "")) ∧
    (∀ (p : ProjectShape) (i : ProjectId), p.id = some i → i ≠ "" →
      createProject p = Except.ok
        { id := i,
          repoIds := p.repoIds.getD [],
          identities := p.identities.getD [],
          discourseServer := p.discourseServer.getD none,
          initiatives := p.initiatives.getD none }) := by
  constructor
  · intro p
    cases hid : p.id with
    | none => simp [createProject, hid, Except.isOk, Except.toBool]
    | some i =>
      by_cases hi : i = ""
      · subst hi
        simp [createProject, hid, Except.isOk, Except.toBool]
      · simp [createProject, hid, hi, Except.isOk, Except.toBool]
  · intro p i hid hi
    simp [createProject, hid, hi]

/-- C8 witness: a shape specifying only the id "foo" succeeds and yields
all defaults. -/
theorem createProject_spec_witness :
    shapeEx.id = some "foo" ∧ "foo" ≠ "" ∧
    createProject shapeEx = Except.ok
      { id := "foo",
        repoIds := shapeEx.repoIds.getD [],
        identities := shapeEx.identities.getD [],
        discourseServer := shapeEx.discourseServer.getD none,
        initiatives := shapeEx.initiatives.getD none } :=
  ⟨rfl, by decide, createProject_spec.2 shapeEx "foo" rfl (by decide)⟩

/-! ### Backend plugin-loader theorems -/

/-- C10: `declarations` returns the plugin declarations in the fixed order
github (code-hosting), discourse (forum), identity, initiatives, each
included exactly when its project field is non-empty / present; in
particular a project with manual identity merges contributes the
identity-plugin declaration. -/
theorem declarations_spec {Decl WG : Type} (pl : PluginLoaders Decl WG)
    (project : Project) :
    declarations pl project =
      (if project.repoIds.length ≠ 0 then [pl.github.declaration] else []) ++
      (if project.discourseServer.isSome then [pl.discourse.declaration] else []) ++
      (if project.identities.length ≠ 0 then [pl.identity.declaration] else []) ++
      (if project.initiatives.isSome then [pl.initiatives.declaration] else []) ∧
    (project.identities.length ≠ 0 →
      pl.identity.declaration ∈ declarations pl project) := by
  constructor
  · simp only [declarations]
    split_ifs <;> simp
  · intro h
    simp only [declarations]
    split_ifs <;> simp_all

/-- C10 witness: a project configuring only manual identity merges yields
the identity-plugin declaration. -/
theorem declarations_spec_witness :
    projIdent.identities.length ≠ 0 ∧
    loadersEx.identity.declaration ∈ declarations loadersEx projIdent :=
  ⟨by decide, (declarations_spec loadersEx projIdent).2 (by decide)⟩

/-- C6: when the project defines no manual identity merges,
`contractPluginGraphs` returns exactly the merge of the per-source graphs,
unchanged, and performs no identity contraction: the result does not depend
on the identity loader's contraction operation at all. -/
theorem contractPluginGraphs_no_identities {Decl WG : Type}
    (pl pl' : PluginLoaders Decl WG) (merge : List WG → WG) (pg : PluginGraphs WG)
    (h : pg.cachedProject.project.identities = []) :
    contractPluginGraphs pl merge pg = merge pg.graphs ∧
    contractPluginGraphs pl merge pg = contractPluginGraphs pl' merge pg := by
  have hlen : pg.cachedProject.project.identities.length = 0 := by
    rw [h]; rfl
  constructor <;> simp [contractPluginGraphs, hlen]

/-- C6 witness: two loader records with different contraction operations
give the same result — the plain merge — on a project without identities. -/
theorem contractPluginGraphs_no_identities_witness :
    pgEx.cachedProject.project.identities = [] ∧
    (contractPluginGraphs loadersEx mergeSum pgEx = mergeSum pgEx.graphs ∧
     contractPluginGraphs loadersEx mergeSum pgEx =
       contractPluginGraphs loadersEx2 mergeSum pgEx) :=
  ⟨rfl, contractPluginGraphs_no_identities loadersEx loadersEx2 mergeSum pgEx rfl⟩

/-- First-match lemma for `List.findSome?`: only the first child whose
result is non-empty matters. -/
theorem findSome?_first {α β : Type} (f : α → Option β) (pre : List α) (d : α)
    (post : List α) (a : β) (hpre : ∀ e ∈ pre, f e = none) (hd : f d = some a) :
    List.findSome? f (pre ++ d :: post) = some a := by
  induction pre with
  | nil => simp [List.findSome?, hd]
  | cons e rest ih =>
    have he : f e = none := hpre e (by simp)
    simp [List.findSome?, he, ih (fun x hx => hpre x (by simp [hx]))]

/-- C7: `createReferenceDetector` returns a cascading detector whose child
detectors appear in the fixed order code-hosting (github), forum
(discourse), initiative, each present only when its source applies; and a
cascading detector resolves a token to the first-registered child's match:
whenever all children before some child fail on a token and that child
matches, its match is the result, whatever later children would say. -/
theorem createReferenceDetector_spec {Decl WG : Type} (pl : PluginLoaders Decl WG)
    (env : GraphEnv) (cp : CachedProject)
    (htok : cp.project.repoIds.length ≠ 0 → env.githubToken ≠ none) :
    createReferenceDetector pl env cp = Except.ok
      { refs :=
          (if cp.project.repoIds.length ≠ 0
            then [pl.github.referenceDetector] else []) ++
          (if cp.project.discourseServer.isSome
            then [pl.discourse.referenceDetector] else []) ++
          (match cp.loadedInitiativesDir with
            | some d => [d.referenceDetector]
            | none => []) } ∧
    (∀ (c : CascadingReferenceDetector) (pre : List RefDetector) (d : RefDetector)
        (post : List RefDetector) (url : String) (a : NodeAddress),
      c.refs = pre ++ d :: post → (∀ e ∈ pre, e url = none) → d url = some a →
      c.addressFromUrl url = some a) := by
  constructor
  · obtain ⟨ld, proj⟩ := cp
    by_cases h1 : proj.repoIds.length ≠ 0
    · have hg : env.githubToken ≠ none := htok h1
      have h1list : proj.repoIds ≠ [] := by
        intro he
        exact h1 (by simp [he])
      cases ld <;> by_cases h2 : proj.discourseServer.isSome <;>
        simp [createReferenceDetector, h1list, hg, h2]
    · have h1list : proj.repoIds = [] := by simpa using h1
      cases ld <;> by_cases h2 : proj.discourseServer.isSome <;>
        simp [createReferenceDetector, h1list, h2]
  · intro c pre d post url a hrefs hpre hd
    rw [CascadingReferenceDetector.addressFromUrl, hrefs]
    exact findSome?_first (fun r => r url) pre d post a hpre hd

/-- C7 witness: a cached project with all three sources applicable and a
token present; the cascading detector's children are exactly github,
discourse, initiative in that order. -/
theorem createReferenceDetector_spec_witness :
    (cpEx.project.repoIds.length ≠ 0 → genvEx.githubToken ≠ none) ∧
    createReferenceDetector loadersEx genvEx cpEx = Except.ok
      { refs :=
          (if cpEx.project.repoIds.length ≠ 0
            then [loadersEx.github.referenceDetector] else []) ++
          (if cpEx.project.discourseServer.isSome
            then [loadersEx.discourse.referenceDetector] else []) ++
          (match cpEx.loadedInitiativesDir with
            | some d => [d.referenceDetector]
            | none => []) } :=
  ⟨fun _ => by decide,
   (createReferenceDetector_spec loadersEx genvEx cpEx (fun _ => by decide)).1⟩

/-- C2 counterexample: a project whose forum source and code-hosting source
both apply, with no github token: `updateMirror` does fail with the
configuration error, but the forum mirror network call has already been
initiated at the throw point — the trace of initiated calls is non-empty,
so the failure does not come before all network activity. -/
theorem updateMirror_counterexample :
    updateMirror envNoToken projDG =
      Except.error
        (ConfigurationError.githubTokenMissing, [MirrorEvent.discourseMirror]) ∧
    [MirrorEvent.discourseMirror] ≠ ([] : List MirrorEvent) :=
  ⟨rfl, by decide⟩

/-- C2 amended: when the code-hosting source applies and no token was
supplied, `updateMirror` fails with the token configuration error before
the code-hosting mirror call (or the initiatives load) is initiated —
though mirror calls of other, earlier-dispatched applicable sources may
already have been initiated; likewise, when the initiative source applies
with no configured directory (and the token precondition does not fire
first), it fails with the directory configuration error before the
initiatives directory load is initiated. -/
theorem updateMirror_config_error (env : MirrorEnv) (project : Project) :
    (project.repoIds.length ≠ 0 → env.githubToken = none →
      ∃ ev, updateMirror env project =
          Except.error (ConfigurationError.githubTokenMissing, ev) ∧
        MirrorEvent.githubMirror ∉ ev ∧ MirrorEvent.initiativesLoad ∉ ev) ∧
    (project.initiatives.isSome → env.initiativesDirectory = none →
      (project.repoIds.length ≠ 0 → env.githubToken ≠ none) →
      ∃ ev, updateMirror env project =
          Except.error (ConfigurationError.initiativesDirectoryMissing, ev) ∧
        MirrorEvent.initiativesLoad ∉ ev) := by
  constructor
  · intro h1 h2
    have h1list : project.repoIds ≠ [] := by
      intro he
      exact h1 (by simp [he])
    refine ⟨if project.discourseServer.isSome
      then [MirrorEvent.discourseMirror] else [], ?_, ?_, ?_⟩
    · simp [updateMirror, h1list, h2]
    · by_cases hd : project.discourseServer.isSome <;> simp [hd]
    · by_cases hd : project.discourseServer.isSome <;> simp [hd]
  · intro hini hdir htok
    have hcond : ¬(project.repoIds.length ≠ 0 ∧ env.githubToken = none) := by
      rintro ⟨a, b⟩
      exact htok a b
    obtain ⟨ini, hini2⟩ := Option.isSome_iff_exists.mp hini
    refine ⟨(if project.discourseServer.isSome
        then [MirrorEvent.discourseMirror] else []) ++
      (if project.repoIds.length ≠ 0 then [MirrorEvent.githubMirror] else []),
      ?_, ?_⟩
    · by_cases hg : project.repoIds = []
      · by_cases hd : project.discourseServer.isSome <;>
          simp [updateMirror, hini2, hdir, hg, hd]
      · have hgt : env.githubToken ≠ none := htok (by simpa using hg)
        by_cases hd : project.discourseServer.isSome <;>
          simp [updateMirror, hini2, hdir, hg, hgt, hd]
    · by_cases hd : project.discourseServer.isSome <;>
        by_cases hg : project.repoIds.length ≠ 0 <;> simp [hd, hg]

/-- C2 witness: the github scenario at the counterexample's input, and the
initiatives scenario on a project with an initiative descriptor, a forum
server, no repositories and no configured directory. -/
theorem updateMirror_config_error_witness :
    (∃ ev, updateMirror envNoToken projDG =
        Except.error (ConfigurationError.githubTokenMissing, ev) ∧
      MirrorEvent.githubMirror ∉ ev ∧ MirrorEvent.initiativesLoad ∉ ev) ∧
    (∃ ev, updateMirror envTok projInit =
        Except.error (ConfigurationError.initiativesDirectoryMissing, ev) ∧
      MirrorEvent.initiativesLoad ∉ ev) :=
  ⟨(updateMirror_config_error envNoToken projDG).1 (by decide) rfl,
   (updateMirror_config_error envTok projInit).2 (by decide) rfl
     (fun h => absurd rfl h)⟩

end SourceCred
